import Mathlib

/-!
Shallow embedding of the widget-sdk authorization, caching and lifecycle
core (`KoruWidget` in the TypeScript source; `AppManagerWidget` is the
same code modulo the preview check, the URL path and the cache-key
marker, so the `KoruWidget` variant, which is the superset, is the one
embedded here).

Modelling conventions:
 * `localStorage` is a string-keyed store; the cache record stored under
   a key is kept typed (`CacheRecord`) instead of JSON-serialized; the
   JSON parse-failure branch of `getFromCache` therefore has no
   counterpart (a present record always parses).
 * `fetch` outcomes are drawn from an environment function
   `net : Nat → FetchOutcome` giving the outcome of the i-th request of
   the retry loop; a transport error or an unparseable body is a
   `FetchOutcome.failure msg` (the thrown error's message), a completed
   exchange is `FetchOutcome.response status body` and the `response.ok`
   check is `200 ≤ status < 300`.
 * `Date.now()` is a single `now : Nat` (epoch milliseconds) fixed for
   the duration of a call.
 * observable effects (network requests, sleeps, storage reads / writes /
   deletes, lifecycle-hook invocations, console errors, analytics posts)
   are recorded in an event trace.
-/

namespace WidgetSDK

/-- Opaque configuration map (`WidgetConfig` has an index signature in the
source; the operations never inspect it, so a string map suffices). -/
abbrev WidgetConfig := List (String × String)

/-- App metadata of an `AuthResponse`. -/
structure AppMeta where
  id : String
  name : String
  description : String
  deriving DecidableEq, Repr

/-- Website metadata of an `AuthResponse`. -/
structure WebsiteMeta where
  id : String
  url : String
  is_ecommerce : Bool
  customer : String
  deriving DecidableEq, Repr

/-- Response of the authorization endpoint (`AuthResponse` in types.ts). -/
structure AuthResponse where
  authorized : Bool
  config : WidgetConfig
  token : String
  app : AppMeta
  website : WebsiteMeta
  deriving DecidableEq, Repr

/-- Resolved options (`Required<WidgetOptions.options>` after merging the
defaults `cache: true, cacheDuration: 3600, retryAttempts: 3,
retryDelay: 1000, analytics: false, debug: false`). -/
structure Options where
  cache : Bool
  cacheDuration : Nat
  retryAttempts : Nat
  retryDelay : Nat
  analytics : Bool
  debug : Bool
  deriving DecidableEq, Repr

/-- The mutable instance fields of a `KoruWidget` that the lifecycle and
authorization methods read or write. -/
structure Widget where
  websiteId : String
  appId : String
  koruUrl : String
  widgetName : String
  widgetVersion : String
  options : Options
  config : WidgetConfig
  authData : Option AuthResponse
  isInitialized : Bool
  deriving DecidableEq, Repr

/-- A persisted cache record: `{ data, timestamp }` with `timestamp` in
epoch milliseconds (`Date.now()` at save time). -/
structure CacheRecord where
  data : AuthResponse
  timestamp : Nat
  deriving DecidableEq, Repr

/-- The page-wide string-keyed store (`localStorage`), restricted to the
typed cache records this SDK writes. -/
abbrev Store := String → Option CacheRecord

/-- Write a record under a key (`localStorage.setItem`). -/
def storeSet (s : Store) (k : String) (v : CacheRecord) : Store :=
  fun q => if q = k then some v else s q

/-- Remove a key (`localStorage.removeItem`). -/
def storeRemove (s : Store) (k : String) : Store :=
  fun q => if q = k then none else s q

/-- Outcome of one `fetch` of the retry loop: either the attempt throws
(transport error or unparseable body) with an error message, or an HTTP
exchange completes with a status and a parsed body. -/
inductive FetchOutcome where
  | failure (msg : String)
  | response (status : Nat) (body : AuthResponse)
  deriving DecidableEq, Repr

/-- Observable effects of a lifecycle or authorization call. -/
inductive Event where
  | request (url : String)
  | sleepFor (ms : Nat)
  | cacheRead (key : String)
  | cacheWrite (key : String)
  | cacheDelete (key : String)
  | hookInit (cfg : WidgetConfig)
  | hookRender (cfg : WidgetConfig)
  | hookDestroy
  | hookConfigUpdate (cfg : WidgetConfig)
  | consoleError (msg : String)
  | analyticsPost (eventType : String)
  deriving DecidableEq, Repr

/-- Execution environment: the global preview slot
(`window.__KORU_PREVIEW_CONFIG__`), the current origin
(`window.location.origin`), the storage contents, the network behaviour
and the wall clock. -/
structure Env where
  preview : Option WidgetConfig
  origin : String
  store : Store
  net : Nat → FetchOutcome
  now : Nat

/-- Cache key derivation (`getCacheKey`):
`koru_widget_${websiteId}_${appId}`. -/
def getCacheKey (w : Widget) : String :=
  "koru_widget_" ++ w.websiteId ++ "_" ++ w.appId

/-- Authorization endpoint URL built by the retry loop. -/
def authUrl (w : Widget) : String :=
  w.koruUrl ++ "/api/auth/widget?website_id=" ++ w.websiteId ++
    "&app_id=" ++ w.appId

/-- Cache read (`getFromCache`): look the key up; absent gives `none`;
a record whose age `(Date.now() - timestamp) / 1000` seconds exceeds
`cacheDuration` is deleted (`clearCache`) and gives `none`; otherwise the
wrapped data is returned.  The result is the returned value, the store
after the call and the event trace. -/
def getFromCache (w : Widget) (store : Store) (now : Nat) :
    Option AuthResponse × Store × List Event :=
  let key := getCacheKey w
  match store key with
  | none => (none, store, [Event.cacheRead key])
  | some r =>
    if ((now : ℚ) - (r.timestamp : ℚ)) / 1000 > (w.options.cacheDuration : ℚ) then
      (none, storeRemove store key, [Event.cacheRead key, Event.cacheDelete key])
    else
      (some r.data, store, [Event.cacheRead key])

/-- Cache write (`saveToCache`): store `{ data, timestamp: Date.now() }`
under the cache key. -/
def saveToCache (w : Widget) (store : Store) (now : Nat) (data : AuthResponse) :
    Store × List Event :=
  let key := getCacheKey w
  (storeSet store key ⟨data, now⟩, [Event.cacheWrite key])

/-- Cache deletion (`clearCache`). -/
def clearCache (w : Widget) (store : Store) : Store × List Event :=
  let key := getCacheKey w
  (storeRemove store key, [Event.cacheDelete key])

/-- The body of one retry-loop attempt up to the `return data`: a thrown
transport error is the failure message; a completed exchange with
`!response.ok` (status outside 200..299) throws
`Authorization failed: ${status}`; an ok response yields its parsed
body. -/
def attemptResult : FetchOutcome → Except String AuthResponse
  | .failure msg => .error msg
  | .response status body =>
    if 200 ≤ status ∧ status < 300 then .ok body
    else .error ("Authorization failed: " ++ toString status)

/-- Result of `authorize`: either the thrown error's message or the
returned response, together with the store after the call and the event
trace. -/
structure AuthOutcome where
  result : Except String AuthResponse
  store : Store
  events : List Event

/-- The retry loop of `authorize` (`for attempt = 1 to retryAttempts`),
by recursion on the remaining attempt count.  `idx` numbers the requests
issued so far; `lastError` is the captured failure message.  Exhaustion
throws `lastError` or the fallback `Authorization failed`; a successful
attempt persists to cache when caching is enabled and returns; a failed
attempt sleeps `retryDelay` milliseconds when attempts remain. -/
def retryLoop (w : Widget) (net : Nat → FetchOutcome) (now : Nat) :
    Nat → Store → Nat → Option String → AuthOutcome
  | 0, store, _, lastError =>
    ⟨.error (lastError.getD "Authorization failed"), store, []⟩
  | r + 1, store, idx, _ =>
    match attemptResult (net idx) with
    | .ok data =>
      if w.options.cache then
        let sv := saveToCache w store now data
        ⟨.ok data, sv.1, Event.request (authUrl w) :: sv.2⟩
      else
        ⟨.ok data, store, [Event.request (authUrl w)]⟩
    | .error msg =>
      let rest := retryLoop w net now r store (idx + 1) (some msg)
      ⟨rest.result, rest.store,
        Event.request (authUrl w) ::
          ((if 0 < r then [Event.sleepFor w.options.retryDelay] else []) ++ rest.events)⟩

/-- `authorize`: preview override first (synthesizes an authorized
response verbatim from the preview config, touching neither cache nor
network), then the cache (when enabled), then the network retry loop. -/
def authorize (w : Widget) (env : Env) : AuthOutcome :=
  match env.preview with
  | some previewCfg =>
    ⟨.ok
      { authorized := true
        config := previewCfg
        token := "preview-mode"
        app :=
          { id := w.appId
            name := "Preview Mode"
            description := "Widget running in Koru preview mode" }
        website :=
          { id := w.websiteId
            url := env.origin
            is_ecommerce := false
            customer := "preview" } },
      env.store, []⟩
  | none =>
    if w.options.cache then
      match getFromCache w env.store env.now with
      | (some cached, store1, evs) => ⟨.ok cached, store1, evs⟩
      | (none, store1, evs) =>
        let rest := retryLoop w env.net env.now w.options.retryAttempts store1 0 none
        ⟨rest.result, rest.store, evs ++ rest.events⟩
    else
      retryLoop w env.net env.now w.options.retryAttempts env.store 0 none

/-- The lifecycle hooks the widget subclass supplies (`onInit`,
`onRender`, `onDestroy` abstract; `onConfigUpdate` optional).  Each hook
either completes or throws an error with a message. -/
structure Hooks where
  onInit : WidgetConfig → Except String Unit
  onRender : WidgetConfig → Except String Unit
  onDestroy : Except String Unit
  onConfigUpdate : Option (WidgetConfig → Except String Unit)

/-- Effects of `track(eventName, ...)`: a fire-and-forget analytics POST
when the analytics option is enabled, nothing otherwise. -/
def trackEvents (opts : Options) (eventType : String) : List Event :=
  if opts.analytics then [Event.analyticsPost eventType] else []

/-- Effects of `handleError(message, error)`: a console error always,
plus a `widget_error` analytics event when analytics is enabled. -/
def handleErrorEvents (opts : Options) (message errMsg : String) : List Event :=
  Event.consoleError (message ++ ": " ++ errMsg) ::
    (if opts.analytics then trackEvents opts "widget_error" else [])

/-- Result of a lifecycle call: the widget fields after the call, the
store after the call, the event trace, and the error (if any) escaping
to the caller. -/
structure LifecycleOutcome where
  widget : Widget
  store : Store
  events : List Event
  uncaught : Option String

/-- The `try`-block of `start()`: wait for the DOM (cannot fail, no
modelled effect), authorize and store the result in `authData`, bail out
silently when unauthorized, otherwise store the config, run `onInit`
then `onRender`, set `isInitialized` and emit the `widget_loaded`
analytics event when enabled.  `uncaught` is the error the block
throws. -/
def startAux (w : Widget) (h : Hooks) (env : Env) : LifecycleOutcome :=
  let auth := authorize w env
  match auth.result with
  | .error e => ⟨w, auth.store, auth.events, some e⟩
  | .ok r =>
    let w1 := { w with authData := some r }
    if r.authorized then
      let w2 := { w1 with config := r.config }
      match h.onInit r.config with
      | .error e => ⟨w2, auth.store, auth.events ++ [Event.hookInit r.config], some e⟩
      | .ok _ =>
        match h.onRender r.config with
        | .error e =>
          ⟨w2, auth.store,
            auth.events ++ [Event.hookInit r.config, Event.hookRender r.config], some e⟩
        | .ok _ =>
          ⟨{ w2 with isInitialized := true }, auth.store,
            auth.events ++ [Event.hookInit r.config, Event.hookRender r.config] ++
              trackEvents w.options "widget_loaded", none⟩
    else
      ⟨w1, auth.store, auth.events, none⟩

/-- `start()`: the `try`-block wrapped in the `catch` that reports
`Failed to start widget` through `handleError` and swallows the
error. -/
def start (w : Widget) (h : Hooks) (env : Env) : LifecycleOutcome :=
  let body := startAux w h env
  match body.uncaught with
  | none => body
  | some e =>
    ⟨body.widget, body.store,
      body.events ++ handleErrorEvents w.options "Failed to start widget" e, none⟩

/-- Result of `stop()` (which never touches the store). -/
structure StopOutcome where
  widget : Widget
  events : List Event
  uncaught : Option String

/-- The `try`-block of `stop()`: run `onDestroy`, then clear
`isInitialized`.  A throwing hook skips the flag assignment. -/
def stopAux (w : Widget) (h : Hooks) : StopOutcome :=
  match h.onDestroy with
  | .error e => ⟨w, [Event.hookDestroy], some e⟩
  | .ok _ => ⟨{ w with isInitialized := false }, [Event.hookDestroy], none⟩

/-- `stop()`: the `try`-block wrapped in the `catch` that reports
`Failed to stop widget` and swallows the error. -/
def stop (w : Widget) (h : Hooks) : StopOutcome :=
  let body := stopAux w h
  match body.uncaught with
  | none => body
  | some e =>
    ⟨body.widget,
      body.events ++ handleErrorEvents w.options "Failed to stop widget" e, none⟩

/-- The `try`-block of `reload()`: clear the cache entry, authorize and
store the result in `authData` (before the authorized check), bail out
silently when unauthorized, otherwise run `onConfigUpdate` when the
subclass implements it and `onDestroy` + `onRender` otherwise, and
finally replace the stored config. -/
def reloadAux (w : Widget) (h : Hooks) (env : Env) : LifecycleOutcome :=
  let cc := clearCache w env.store
  let auth := authorize w { env with store := cc.1 }
  match auth.result with
  | .error e => ⟨w, auth.store, cc.2 ++ auth.events, some e⟩
  | .ok r =>
    let w1 := { w with authData := some r }
    if r.authorized then
      let newConfig := r.config
      match h.onConfigUpdate with
      | some upd =>
        match upd newConfig with
        | .error e =>
          ⟨w1, auth.store, cc.2 ++ auth.events ++ [Event.hookConfigUpdate newConfig], some e⟩
        | .ok _ =>
          ⟨{ w1 with config := newConfig }, auth.store,
            cc.2 ++ auth.events ++ [Event.hookConfigUpdate newConfig], none⟩
      | none =>
        match h.onDestroy with
        | .error e => ⟨w1, auth.store, cc.2 ++ auth.events ++ [Event.hookDestroy], some e⟩
        | .ok _ =>
          match h.onRender newConfig with
          | .error e =>
            ⟨w1, auth.store,
              cc.2 ++ auth.events ++ [Event.hookDestroy, Event.hookRender newConfig], some e⟩
          | .ok _ =>
            ⟨{ w1 with config := newConfig }, auth.store,
              cc.2 ++ auth.events ++ [Event.hookDestroy, Event.hookRender newConfig], none⟩
    else
      ⟨w1, auth.store, cc.2 ++ auth.events, none⟩

/-- `reload()`: the `try`-block wrapped in the `catch` that reports
`Failed to reload widget` and swallows the error. -/
def reload (w : Widget) (h : Hooks) (env : Env) : LifecycleOutcome :=
  let body := reloadAux w h env
  match body.uncaught with
  | none => body
  | some e =>
    ⟨body.widget, body.store,
      body.events ++ handleErrorEvents w.options "Failed to reload widget" e, none⟩

/-- Event classifiers used to count effects in a trace. -/
def isRequestEv : Event → Bool
  | .request _ => true
  | _ => false

/-- Classifier for sleeps. -/
def isSleepEv : Event → Bool
  | .sleepFor _ => true
  | _ => false

/-- Classifier for cache reads. -/
def isCacheReadEv : Event → Bool
  | .cacheRead _ => true
  | _ => false

/-- Classifier for cache writes. -/
def isCacheWriteEv : Event → Bool
  | .cacheWrite _ => true
  | _ => false

/-- Classifier for `onInit` invocations. -/
def isInitHookEv : Event → Bool
  | .hookInit _ => true
  | _ => false

/-- Classifier for `onRender` invocations. -/
def isRenderHookEv : Event → Bool
  | .hookRender _ => true
  | _ => false

/-- Classifier for `onDestroy` invocations. -/
def isDestroyHookEv : Event → Bool
  | .hookDestroy => true
  | _ => false

/-- Classifier for `onConfigUpdate` invocations. -/
def isUpdateHookEv : Event → Bool
  | .hookConfigUpdate _ => true
  | _ => false

/-- Number of events of a given kind in a trace. -/
def countEv (p : Event → Bool) (evs : List Event) : Nat :=
  (evs.filter p).length

/-- An attempt outcome is a failure: the fetch threw or the response was
not ok (non-2xx). -/
def isFailOutcome (o : FetchOutcome) : Bool :=
  match attemptResult o with
  | .error _ => true
  | .ok _ => false

/-- The failure message an attempt outcome carries (the transport
error's message, or `Authorization failed: ${status}` for a non-2xx
response). -/
def failMsg (o : FetchOutcome) : String :=
  match attemptResult o with
  | .error m => m
  | .ok _ => ""

/-- The event trace the retry loop produces when every one of `n`
attempts fails: a request, then `retryDelay` sleeps between consecutive
requests and none after the last. -/
def failLoopTrace (url : String) (d : Nat) : Nat → List Event
  | 0 => []
  | n + 1 =>
    Event.request url :: ((if 0 < n then [Event.sleepFor d] else []) ++ failLoopTrace url d n)

/-- Count of an event kind in the empty trace. -/
theorem countEv_nil (p : Event → Bool) : countEv p [] = 0 := rfl

/-- Count of an event kind under cons. -/
theorem countEv_cons (p : Event → Bool) (e : Event) (l : List Event) :
    countEv p (e :: l) = (if p e = true then 1 else 0) + countEv p l := by
  simp only [countEv, List.filter_cons]
  split <;> simp [Nat.add_comm]

/-- Count of an event kind distributes over append. -/
theorem countEv_append (p : Event → Bool) (l1 l2 : List Event) :
    countEv p (l1 ++ l2) = countEv p l1 + countEv p l2 := by
  simp [countEv, List.filter_append]

/-- An all-failure loop trace of length `n` holds exactly `n`
requests. -/
theorem countEv_failLoopTrace_request (url : String) (d : Nat) :
    ∀ n, countEv isRequestEv (failLoopTrace url d n) = n := by
  intro n
  induction n with
  | zero => rfl
  | succ m ih =>
    rw [failLoopTrace, countEv_cons, countEv_append, ih]
    have h0 : countEv isRequestEv (if 0 < m then [Event.sleepFor d] else []) = 0 := by
      split <;> rfl
    rw [h0]
    simp [isRequestEv]
    omega

/-- An all-failure loop trace of length `n` holds exactly `n - 1`
sleeps. -/
theorem countEv_failLoopTrace_sleep (url : String) (d : Nat) :
    ∀ n, countEv isSleepEv (failLoopTrace url d n) = n - 1 := by
  intro n
  induction n with
  | zero => rfl
  | succ m ih =>
    rw [failLoopTrace, countEv_cons, countEv_append, ih]
    cases m with
    | zero => rfl
    | succ k =>
      have h2 : countEv isSleepEv (if 0 < k + 1 then [Event.sleepFor d] else []) = 1 := by
        rw [if_pos (Nat.succ_pos k)]
        rfl
      rw [h2]
      simp [isSleepEv]
      omega

/-- Every sleep of an all-failure loop trace lasts the retry delay. -/
theorem failLoopTrace_sleep_duration (url : String) (d : Nat) :
    ∀ n ms, Event.sleepFor ms ∈ failLoopTrace url d n → ms = d := by
  intro n
  induction n with
  | zero => intro ms h; simp [failLoopTrace] at h
  | succ m ih =>
    intro ms h
    simp only [failLoopTrace, List.mem_cons, List.mem_append] at h
    rcases h with h | h | h
    · simp at h
    · by_cases hm : 0 < m
      · rw [if_pos hm] at h
        simp at h
        exact h
      · rw [if_neg hm] at h
        simp at h
    · exact ih ms h

/-- One failing step of the retry loop: the attempt's error message is
captured, a sleep happens exactly when attempts remain, and the loop
recurses. -/
theorem retryLoop_fail_step (w : Widget) (net : Nat → FetchOutcome) (now : Nat)
    (r : Nat) (store : Store) (idx : Nat) (le : Option String) (m : String)
    (hm : attemptResult (net idx) = Except.error m) :
    retryLoop w net now (r + 1) store idx le =
      ⟨(retryLoop w net now r store (idx + 1) (some m)).result,
        (retryLoop w net now r store (idx + 1) (some m)).store,
        Event.request (authUrl w) ::
          ((if 0 < r then [Event.sleepFor w.options.retryDelay] else []) ++
            (retryLoop w net now r store (idx + 1) (some m)).events)⟩ := by
  simp only [retryLoop, hm]

/-- When every remaining attempt fails, the retry loop raises the last
attempt's failure message, leaves the store untouched (failures never
write to the cache) and produces exactly the all-failure trace. -/
theorem retryLoop_all_fail (w : Widget) (net : Nat → FetchOutcome) (now : Nat) :
    ∀ remaining : Nat, 1 ≤ remaining →
      ∀ (store : Store) (idx : Nat) (le : Option String),
        (∀ i, i < remaining → isFailOutcome (net (idx + i)) = true) →
        retryLoop w net now remaining store idx le =
          ⟨Except.error (failMsg (net (idx + remaining - 1))), store,
            failLoopTrace (authUrl w) w.options.retryDelay remaining⟩ := by
  intro remaining
  induction remaining with
  | zero => intro h; omega
  | succ r ih =>
    intro _ store idx le hfail
    have hf0 : isFailOutcome (net idx) = true := by
      simpa using hfail 0 (Nat.succ_pos r)
    cases hm : attemptResult (net idx) with
    | ok data => rw [isFailOutcome, hm] at hf0; cases hf0
    | error m =>
      have hmsg : failMsg (net idx) = m := by rw [failMsg, hm]
      rw [retryLoop_fail_step w net now r store idx le m hm]
      cases r with
      | zero =>
        simp [retryLoop, failLoopTrace, hmsg]
      | succ r2 =>
        have hrec := ih (Nat.succ_pos r2) store (idx + 1) (some m)
          (fun i hi => by
            have h2 := hfail (i + 1) (by omega)
            have harith : idx + (i + 1) = idx + 1 + i := by omega
            rw [harith] at h2
            exact h2)
        rw [hrec]
        have harith2 : idx + 1 + (r2 + 1) - 1 = idx + (r2 + 1 + 1) - 1 := by omega
        rw [harith2]
        simp [failLoopTrace]

/-- The events of a cache read contain no network requests and no
sleeps. -/
theorem getFromCache_events_quiet (w : Widget) (store : Store) (now : Nat) :
    countEv isRequestEv (getFromCache w store now).2.2 = 0 ∧
      countEv isSleepEv (getFromCache w store now).2.2 = 0 := by
  cases hs : store (getCacheKey w) with
  | none => simp [getFromCache, hs, countEv, isRequestEv, isSleepEv]
  | some r =>
    by_cases hexp :
        ((now : ℚ) - (r.timestamp : ℚ)) / 1000 > (w.options.cacheDuration : ℚ)
    · simp [getFromCache, hs, hexp, countEv, isRequestEv, isSleepEv]
    · simp [getFromCache, hs, hexp, countEv, isRequestEv, isSleepEv]

/-- C1 theorem.  With at least one retry attempt configured, no preview
override, a cache that yields no entry, and every network attempt
failing (transport error or non-2xx response), `authorize` issues
exactly `N` requests, sleeps exactly `N - 1` times for `retryDelay`
milliseconds each (between consecutive attempts, never after the last —
the trace shape `failLoopTrace` interleaves them), and raises an error
carrying the last attempt's failure message. -/
theorem authorize_retry_exhaustion (w : Widget) (env : Env) (N : Nat)
    (hN : w.options.retryAttempts = N) (hN1 : 1 ≤ N)
    (hprev : env.preview = none)
    (hcache : w.options.cache = true → (getFromCache w env.store env.now).1 = none)
    (hfail : ∀ i, i < N → isFailOutcome (env.net i) = true) :
    (authorize w env).result = Except.error (failMsg (env.net (N - 1))) ∧
      countEv isRequestEv (authorize w env).events = N ∧
      countEv isSleepEv (authorize w env).events = N - 1 ∧
      (∀ ms, Event.sleepFor ms ∈ (authorize w env).events → ms = w.options.retryDelay) ∧
      (∃ pre, (authorize w env).events =
          pre ++ failLoopTrace (authUrl w) w.options.retryDelay N ∧
          countEv isRequestEv pre = 0 ∧ countEv isSleepEv pre = 0) := by
  have hloop := retryLoop_all_fail w env.net env.now N hN1
  cases hc : w.options.cache with
  | false =>
    have hout : authorize w env =
        ⟨Except.error (failMsg (env.net (N - 1))), env.store,
          failLoopTrace (authUrl w) w.options.retryDelay N⟩ := by
      unfold authorize
      rw [hprev, hc, hN]
      simp only [Bool.false_eq_true, if_false]
      rw [hloop env.store 0 none (fun i hi => by simpa using hfail i hi)]
      simp only [Nat.zero_add]
    rw [hout]
    refine ⟨rfl, ?_, ?_, ?_, ⟨[], by simp, rfl, rfl⟩⟩
    · exact countEv_failLoopTrace_request _ _ N
    · exact countEv_failLoopTrace_sleep _ _ N
    · exact failLoopTrace_sleep_duration _ _ N
  | true =>
    rcases hge : getFromCache w env.store env.now with ⟨res, s1, evs1⟩
    have hres : res = none := by
      have h1 := hcache hc
      rw [hge] at h1
      exact h1
    subst hres
    have hquiet := getFromCache_events_quiet w env.store env.now
    rw [hge] at hquiet
    have hout : authorize w env =
        ⟨Except.error (failMsg (env.net (N - 1))), s1,
          evs1 ++ failLoopTrace (authUrl w) w.options.retryDelay N⟩ := by
      unfold authorize
      rw [hprev, hc, hge, hN]
      simp only [if_true]
      rw [hloop s1 0 none (fun i hi => by simpa using hfail i hi)]
      simp only [Nat.zero_add]
    rw [hout]
    refine ⟨rfl, ?_, ?_, ?_, ⟨evs1, rfl, hquiet.1, hquiet.2⟩⟩
    · rw [countEv_append, hquiet.1, countEv_failLoopTrace_request]
      omega
    · rw [countEv_append, hquiet.2, countEv_failLoopTrace_sleep]
      omega
    · intro ms hms
      rw [List.mem_append] at hms
      rcases hms with hms | hms
      · exfalso
        have hnil : List.filter isSleepEv evs1 = [] :=
          List.eq_nil_of_length_eq_zero hquiet.2
        have hmem : Event.sleepFor ms ∈ List.filter isSleepEv evs1 :=
          List.mem_filter.mpr ⟨hms, rfl⟩
        rw [hnil] at hmem
        simp at hmem
      · exact failLoopTrace_sleep_duration _ _ N ms hms

/-- The default resolved options of the source (`cache: true,
cacheDuration: 3600, retryAttempts: 3, retryDelay: 1000,
analytics: false, debug: false`). -/
def exOptions : Options :=
  { cache := true, cacheDuration := 3600, retryAttempts := 3, retryDelay := 1000
    analytics := false, debug := false }

/-- A concrete widget instance. -/
def exWidget : Widget :=
  { websiteId := "site1", appId := "app1", koruUrl := "https://koru.example"
    widgetName := "demo", widgetVersion := "1.0.0", options := exOptions
    config := [], authData := none, isInitialized := false }

/-- An empty store. -/
def emptyStore : Store := fun _ => none

/-- An environment whose preview slot is populated. -/
def envPreview : Env :=
  { preview := some [("color", "red")], origin := "https://host.example"
    store := emptyStore, net := fun _ => .failure "network down", now := 1000 }

/-- C3 theorem.  When the process-wide preview configuration is
populated, `authorize` returns an authorized result whose config is the
preview object verbatim, leaves the store untouched and produces an
empty event trace — in particular zero cache reads, zero cache writes
and zero network requests. -/
theorem authorize_preview_bypass (w : Widget) (env : Env) (p : WidgetConfig)
    (hp : env.preview = some p) :
    (authorize w env).events = [] ∧ (authorize w env).store = env.store ∧
      ∃ r : AuthResponse, (authorize w env).result = Except.ok r ∧
        r.authorized = true ∧ r.config = p := by
  refine ⟨?_, ?_, ?_⟩ <;> simp [authorize, hp]

/-- C3 witness: the preview path evaluated on a concrete widget and
environment. -/
theorem authorize_preview_bypass_witness :
    (authorize exWidget envPreview).events = [] ∧
      (authorize exWidget envPreview).store = envPreview.store ∧
      ∃ r : AuthResponse, (authorize exWidget envPreview).result = Except.ok r ∧
        r.authorized = true ∧ r.config = [("color", "red")] :=
  authorize_preview_bypass exWidget envPreview [("color", "red")] rfl

/-- A widget configured with two retry attempts. -/
def exWidgetRetry : Widget :=
  { exWidget with options := { exOptions with retryAttempts := 2 } }

/-- An environment with no preview, an empty store and a network that
always fails. -/
def envAllFail : Env :=
  { preview := none, origin := "https://host.example", store := emptyStore
    net := fun _ => .failure "network down", now := 1000 }

/-- C1 witness: two attempts against an always-failing network yield the
transport error after exactly two requests and one sleep. -/
theorem authorize_retry_exhaustion_witness :
    (authorize exWidgetRetry envAllFail).result = Except.error "network down" ∧
      countEv isRequestEv (authorize exWidgetRetry envAllFail).events = 2 ∧
      countEv isSleepEv (authorize exWidgetRetry envAllFail).events = 1 ∧
      (∀ ms, Event.sleepFor ms ∈ (authorize exWidgetRetry envAllFail).events →
        ms = 1000) := by
  have h := authorize_retry_exhaustion exWidgetRetry envAllFail 2 rfl (by omega) rfl
    (fun _ => rfl) (fun i hi => rfl)
  exact ⟨h.1, h.2.1, h.2.2.1, h.2.2.2.1⟩

/-- A fixed successful authorization response. -/
def exAuthResponse : AuthResponse :=
  { authorized := true, config := [("color", "red")], token := "tok-1"
    app := { id := "app1", name := "Demo App", description := "demo" }
    website :=
      { id := "site1", url := "https://host.example", is_ecommerce := false
        customer := "cust-1" } }

/-- A store holding a cache entry for `exWidget` captured at 500 ms. -/
def storeWithEntry : Store :=
  fun k => if k = getCacheKey exWidget then some ⟨exAuthResponse, 500⟩ else none

/-- An environment whose cached entry is fresh (age 0.5 s ≤ 3600 s). -/
def envCacheFresh : Env :=
  { preview := none, origin := "https://host.example", store := storeWithEntry
    net := fun _ => .failure "network down", now := 1000 }

/-- An environment whose cached entry is stale (age 3600.001 s). -/
def envCacheStale : Env :=
  { preview := none, origin := "https://host.example", store := storeWithEntry
    net := fun _ => .failure "network down", now := 500 + 3600 * 1000 + 1 }

/-- C2 theorem.  With caching enabled, no preview, and a stored entry
under the instance's cache key: when the entry's age
`(now - timestamp) / 1000` seconds is at most `cacheDuration`,
`authorize` returns the wrapped cached payload with a single cache-read
event (zero network requests) and an unchanged store; when the age
exceeds `cacheDuration`, `authorize` deletes the entry (the key is
absent from the store handed to the network loop) and proceeds exactly
as the network retry loop on the pruned store. -/
theorem authorize_cache_hit_and_expiry (w : Widget) (env : Env)
    (hc : w.options.cache = true) (hp : env.preview = none)
    (r : CacheRecord) (hr : env.store (getCacheKey w) = some r) :
    (((env.now : ℚ) - (r.timestamp : ℚ)) / 1000 ≤ (w.options.cacheDuration : ℚ) →
      authorize w env =
        ⟨Except.ok r.data, env.store, [Event.cacheRead (getCacheKey w)]⟩) ∧
    (((env.now : ℚ) - (r.timestamp : ℚ)) / 1000 > (w.options.cacheDuration : ℚ) →
      authorize w env =
        ⟨(retryLoop w env.net env.now w.options.retryAttempts
            (storeRemove env.store (getCacheKey w)) 0 none).result,
          (retryLoop w env.net env.now w.options.retryAttempts
            (storeRemove env.store (getCacheKey w)) 0 none).store,
          [Event.cacheRead (getCacheKey w), Event.cacheDelete (getCacheKey w)] ++
            (retryLoop w env.net env.now w.options.retryAttempts
              (storeRemove env.store (getCacheKey w)) 0 none).events⟩ ∧
        storeRemove env.store (getCacheKey w) (getCacheKey w) = none) := by
  constructor
  · intro hfresh
    have hg : getFromCache w env.store env.now =
        (some r.data, env.store, [Event.cacheRead (getCacheKey w)]) := by
      rw [getFromCache]
      simp only [hr]
      rw [if_neg (not_lt.mpr hfresh)]
    simp [authorize, hp, hc, hg]
  · intro hexp
    have hg : getFromCache w env.store env.now =
        (none, storeRemove env.store (getCacheKey w),
          [Event.cacheRead (getCacheKey w), Event.cacheDelete (getCacheKey w)]) := by
      rw [getFromCache]
      simp only [hr]
      rw [if_pos hexp]
    refine ⟨by simp [authorize, hp, hc, hg], ?_⟩
    simp [storeRemove]

/-- C2 witness: on the fresh environment the cached payload is returned
with a single cache read; on the stale environment the entry is gone
from the store handed to the network loop. -/
theorem authorize_cache_hit_and_expiry_witness :
    authorize exWidget envCacheFresh =
      ⟨Except.ok exAuthResponse, envCacheFresh.store,
        [Event.cacheRead (getCacheKey exWidget)]⟩ ∧
      storeRemove envCacheStale.store (getCacheKey exWidget) (getCacheKey exWidget) =
        none := by
  constructor
  · exact (authorize_cache_hit_and_expiry exWidget envCacheFresh rfl rfl
      ⟨exAuthResponse, 500⟩ (by simp [envCacheFresh, storeWithEntry])).1
      (by norm_num [envCacheFresh, exWidget, exOptions])
  · exact ((authorize_cache_hit_and_expiry exWidget envCacheStale rfl rfl
      ⟨exAuthResponse, 500⟩ (by simp [envCacheStale, storeWithEntry])).2
      (by norm_num [envCacheStale, exWidget, exOptions])).2

/-- Classifier for lifecycle-hook events of any kind. -/
def isLifecycleHookEv : Event → Bool
  | .hookInit _ => true
  | .hookRender _ => true
  | .hookDestroy => true
  | .hookConfigUpdate _ => true
  | _ => false

/-- A kindwise-empty trace has count zero. -/
theorem countEv_eq_zero {p : Event → Bool} {l : List Event}
    (h : ∀ e ∈ l, p e = false) : countEv p l = 0 := by
  simp only [countEv, List.length_eq_zero, List.filter_eq_nil_iff]
  intro e he
  simp [h e he]

/-- The retry loop emits only requests, sleeps and cache writes — never
lifecycle-hook events. -/
theorem retryLoop_no_hook_events (w : Widget) (net : Nat → FetchOutcome) (now : Nat) :
    ∀ (remaining : Nat) (store : Store) (idx : Nat) (le : Option String),
      ∀ e ∈ (retryLoop w net now remaining store idx le).events,
        isLifecycleHookEv e = false := by
  intro remaining
  induction remaining with
  | zero => intro store idx le e he; simp [retryLoop] at he
  | succ r ih =>
    intro store idx le e he
    cases hm : attemptResult (net idx) with
    | ok data =>
      cases hc : w.options.cache with
      | true =>
        simp [retryLoop, hm, hc, saveToCache] at he
        rcases he with he | he <;> subst he <;> rfl
      | false =>
        simp [retryLoop, hm, hc] at he
        subst he
        rfl
    | error m =>
      rw [retryLoop_fail_step w net now r store idx le m hm] at he
      simp only [List.mem_cons, List.mem_append] at he
      rcases he with he | he | he
      · subst he; rfl
      · by_cases h0 : 0 < r
        · rw [if_pos h0] at he
          simp at he
          subst he
          rfl
        · rw [if_neg h0] at he
          simp at he
      · exact ih store (idx + 1) (some m) e he

/-- A cache read emits only cache reads and deletes. -/
theorem getFromCache_no_hook_events (w : Widget) (store : Store) (now : Nat) :
    ∀ e ∈ (getFromCache w store now).2.2, isLifecycleHookEv e = false := by
  intro e he
  cases hs : store (getCacheKey w) with
  | none =>
    simp [getFromCache, hs] at he
    subst he
    rfl
  | some r =>
    by_cases hexp :
        ((now : ℚ) - (r.timestamp : ℚ)) / 1000 > (w.options.cacheDuration : ℚ)
    · simp [getFromCache, hs, hexp] at he
      rcases he with he | he <;> subst he <;> rfl
    · simp [getFromCache, hs, hexp] at he
      subst he
      rfl

/-- `authorize` never emits lifecycle-hook events. -/
theorem authorize_no_hook_events (w : Widget) (env : Env) :
    ∀ e ∈ (authorize w env).events, isLifecycleHookEv e = false := by
  intro e he
  cases hp : env.preview with
  | some p => simp [authorize, hp] at he
  | none =>
    cases hc : w.options.cache with
    | false =>
      rw [authorize] at he
      rw [hp] at he
      simp only [hc, Bool.false_eq_true, if_false] at he
      exact retryLoop_no_hook_events w env.net env.now _ _ _ _ e he
    | true =>
      rcases hge : getFromCache w env.store env.now with ⟨res, s1, evs1⟩
      have hq := getFromCache_no_hook_events w env.store env.now
      rw [hge] at hq
      rw [authorize] at he
      rw [hp] at he
      simp only [hc, if_true, hge] at he
      cases res with
      | some cached => exact hq e he
      | none =>
        simp only [List.mem_append] at he
        rcases he with he | he
        · exact hq e he
        · exact retryLoop_no_hook_events w env.net env.now _ _ _ _ e he

/-- `track` never emits lifecycle-hook events. -/
theorem trackEvents_not_hook {opts : Options} {t : String} {ev : Event}
    (hmem : ev ∈ trackEvents opts t) : isLifecycleHookEv ev = false := by
  unfold trackEvents at hmem
  split at hmem
  · simp at hmem
    subst hmem
    rfl
  · simp at hmem

/-- `handleError` never emits lifecycle-hook events. -/
theorem handleErrorEvents_not_hook {opts : Options} {m e : String} {ev : Event}
    (hmem : ev ∈ handleErrorEvents opts m e) : isLifecycleHookEv ev = false := by
  unfold handleErrorEvents at hmem
  rcases List.mem_cons.mp hmem with h | h
  · subst h; rfl
  · split at h
    · exact trackEvents_not_hook h
    · simp at h

/-- Hook-kind counts vanish on traces with no hook events. -/
theorem countEv_of_subhook_eq_zero {p : Event → Bool} {l : List Event}
    (hp : ∀ e, p e = true → isLifecycleHookEv e = true)
    (h : ∀ e ∈ l, isLifecycleHookEv e = false) : countEv p l = 0 :=
  countEv_eq_zero (fun e he => by
    cases hpe : p e with
    | false => rfl
    | true => exact absurd (h e he) (by rw [hp e hpe]; simp))

/-- The error report of `handleError` starts with the console error. -/
theorem mem_handleErrorEvents_console (opts : Options) (m e : String) :
    Event.consoleError (m ++ ": " ++ e) ∈ handleErrorEvents opts m e := by
  simp [handleErrorEvents]

/-- With analytics enabled, the error report holds a `widget_error`
analytics event. -/
theorem mem_handleErrorEvents_analytics (opts : Options) (m e : String)
    (ha : opts.analytics = true) :
    Event.analyticsPost "widget_error" ∈ handleErrorEvents opts m e := by
  simp [handleErrorEvents, trackEvents, ha]

/-- A widget whose websiteId contains an underscore. -/
def exWidgetKeyA : Widget := { exWidget with websiteId := "a_b", appId := "c" }

/-- A widget yielding the same cache key as `exWidgetKeyA` from a
different identity pair. -/
def exWidgetKeyB : Widget := { exWidget with websiteId := "a", appId := "b_c" }

/-- C6 counterexample.  The pairs `("a_b", "c")` and `("a", "b_c")` are
distinct pairs of non-empty strings, yet both derive the cache key
`koru_widget_a_b_c`: the derivation is not injective over all non-empty
identity pairs. -/
theorem getCacheKey_collision :
    getCacheKey exWidgetKeyA = getCacheKey exWidgetKeyB ∧
      exWidgetKeyA.websiteId ≠ "" ∧ exWidgetKeyA.appId ≠ "" ∧
      exWidgetKeyB.websiteId ≠ "" ∧ exWidgetKeyB.appId ≠ "" ∧
      (exWidgetKeyA.websiteId, exWidgetKeyA.appId) ≠
        (exWidgetKeyB.websiteId, exWidgetKeyB.appId) := by
  decide

/-- Splitting a list at a separator absent from both left parts is
unambiguous. -/
theorem sep_split_unique {c : Char} :
    ∀ l1 l2 r1 r2 : List Char, c ∉ l1 → c ∉ l2 →
      l1 ++ c :: r1 = l2 ++ c :: r2 → l1 = l2 ∧ r1 = r2 := by
  intro l1
  induction l1 with
  | nil =>
    intro l2 r1 r2 _ h2 heq
    cases l2 with
    | nil => simpa using heq
    | cons b t =>
      rw [List.nil_append, List.cons_append, List.cons.injEq] at heq
      exact absurd (heq.1 ▸ List.mem_cons_self b t) h2
  | cons a t ih =>
    intro l2 r1 r2 h1 h2 heq
    cases l2 with
    | nil =>
      rw [List.nil_append, List.cons_append, List.cons.injEq] at heq
      exact absurd (heq.1 ▸ List.mem_cons_self a t) h1
    | cons b t2 =>
      rw [List.cons_append, List.cons_append, List.cons.injEq] at heq
      obtain ⟨rfl, htail⟩ := heq
      have hrec := ih t2 r1 r2 (fun hm => h1 (List.mem_cons_of_mem a hm))
        (fun hm => h2 (List.mem_cons_of_mem a hm)) htail
      exact ⟨by rw [hrec.1], hrec.2⟩

/-- C6 theorem (amended).  The cache key is a deterministic function of
the `(websiteId, appId)` pair, and for widgets whose `websiteId`
contains no underscore character the derivation is injective: equal keys
force equal pairs.  (Injectivity fails for arbitrary non-empty ids, see
the counterexample.) -/
theorem getCacheKey_stable_and_injective :
    (∀ w1 w2 : Widget, w1.websiteId = w2.websiteId → w1.appId = w2.appId →
        getCacheKey w1 = getCacheKey w2) ∧
      (∀ w1 w2 : Widget, ('_' ∉ w1.websiteId.data) → ('_' ∉ w2.websiteId.data) →
        getCacheKey w1 = getCacheKey w2 →
        w1.websiteId = w2.websiteId ∧ w1.appId = w2.appId) := by
  constructor
  · intro w1 w2 hsite happ
    simp [getCacheKey, hsite, happ]
  · intro w1 w2 hn1 hn2 hkey
    have hd := congrArg String.data hkey
    simp only [getCacheKey, String.data_append, List.append_assoc] at hd
    have hd2 := List.append_cancel_left hd
    have hd3 : w1.websiteId.data ++ '_' :: w1.appId.data =
        w2.websiteId.data ++ '_' :: w2.appId.data := by
      simpa using hd2
    have hsplit := sep_split_unique w1.websiteId.data w2.websiteId.data
      w1.appId.data w2.appId.data hn1 hn2 hd3
    exact ⟨String.ext hsplit.1, String.ext hsplit.2⟩

/-- C6 witness: both parts applied at concrete widgets. -/
theorem getCacheKey_stable_and_injective_witness :
    getCacheKey exWidget = getCacheKey exWidget ∧
      (exWidget.websiteId = exWidget.websiteId ∧ exWidget.appId = exWidget.appId) :=
  ⟨getCacheKey_stable_and_injective.1 exWidget exWidget rfl rfl,
    getCacheKey_stable_and_injective.2 exWidget exWidget (by decide) (by decide) rfl⟩

/-- Hooks that all complete without raising. -/
def exHooksOk : Hooks :=
  { onInit := fun _ => Except.ok (), onRender := fun _ => Except.ok ()
    onDestroy := Except.ok (), onConfigUpdate := none }

/-- Hooks whose `onDestroy` raises. -/
def exHooksBadDestroy : Hooks :=
  { onInit := fun _ => Except.ok (), onRender := fun _ => Except.ok ()
    onDestroy := Except.error "hook crash", onConfigUpdate := none }

/-- A widget instance in the running state. -/
def exWidgetRunning : Widget := { exWidget with isInitialized := true }

/-- C4 counterexample.  With hooks that do not raise, two successive
`stop()` calls invoke `onDestroy` twice — not once: `stop` calls the
hook unconditionally, so the second call is not a no-op with respect to
hook invocations. -/
theorem stop_twice_counterexample :
    countEv isDestroyHookEv
        ((stop exWidgetRunning exHooksOk).events ++
          (stop (stop exWidgetRunning exHooksOk).widget exHooksOk).events) = 2 ∧
      countEv isDestroyHookEv
          ((stop exWidgetRunning exHooksOk).events ++
            (stop (stop exWidgetRunning exHooksOk).widget exHooksOk).events) ≠ 1 := by
  decide

/-- C4 theorem (amended).  With a non-raising `onDestroy` hook, two
successive `stop()` calls both return without raising into the caller,
and `onDestroy` is invoked exactly once per call — twice across the two
calls, the second call repeating the hook invocation. -/
theorem stop_twice_amended (w : Widget) (h : Hooks)
    (hok : h.onDestroy = Except.ok ()) :
    (stop w h).uncaught = none ∧
      (stop (stop w h).widget h).uncaught = none ∧
      (stop w h).events = [Event.hookDestroy] ∧
      (stop (stop w h).widget h).events = [Event.hookDestroy] := by
  simp [stop, stopAux, hok]

/-- C4 witness: both stop calls evaluated on a concrete widget. -/
theorem stop_twice_amended_witness :
    (stop exWidgetRunning exHooksOk).uncaught = none ∧
      (stop (stop exWidgetRunning exHooksOk).widget exHooksOk).uncaught = none ∧
      (stop exWidgetRunning exHooksOk).events = [Event.hookDestroy] ∧
      (stop (stop exWidgetRunning exHooksOk).widget exHooksOk).events =
        [Event.hookDestroy] :=
  stop_twice_amended exWidgetRunning exHooksOk rfl

/-- C5 counterexample.  On a running instance whose `onDestroy` hook
raises, `stop()` swallows the error but does NOT clear the initialized
flag: the instance does not reach the stopped state. -/
theorem stop_hook_error_counterexample :
    (stop exWidgetRunning exHooksBadDestroy).widget.isInitialized = true ∧
      (stop exWidgetRunning exHooksBadDestroy).uncaught = none := by
  decide

/-- C5 theorem (amended).  `stop()` always invokes `onDestroy` exactly
once and never raises into the caller; when the hook completes, the
initialized flag is cleared; when the hook raises, the error is caught
and reported through the console-error channel but the widget fields —
including the initialized flag — retain their prior values. -/
theorem stop_hook_error_behaviour (w : Widget) (h : Hooks) :
    countEv isDestroyHookEv (stop w h).events = 1 ∧
      (stop w h).uncaught = none ∧
      (h.onDestroy = Except.ok () → (stop w h).widget.isInitialized = false) ∧
      (∀ e, h.onDestroy = Except.error e →
        (stop w h).widget = w ∧
          Event.consoleError ("Failed to stop widget: " ++ e) ∈ (stop w h).events) := by
  cases hd : h.onDestroy with
  | ok u =>
    cases u
    refine ⟨?_, ?_, fun _ => ?_, fun e he => ?_⟩
    · simp [stop, stopAux, hd, countEv, isDestroyHookEv]
    · simp [stop, stopAux, hd]
    · simp [stop, stopAux, hd]
    · simp at he
  | error e0 =>
    have hred : stop w h =
        ⟨w, [Event.hookDestroy] ++
          handleErrorEvents w.options "Failed to stop widget" e0, none⟩ := by
      simp [stop, stopAux, hd]
    refine ⟨?_, ?_, fun hok => ?_, fun e he => ?_⟩
    · rw [hred]
      simp only [countEv_append]
      have hz : countEv isDestroyHookEv
          (handleErrorEvents w.options "Failed to stop widget" e0) = 0 :=
        countEv_eq_zero (fun ev hm => by
          have hnh := handleErrorEvents_not_hook hm
          cases ev <;> simp_all [isDestroyHookEv, isLifecycleHookEv])
      rw [hz]
      rfl
    · rw [hred]
    · simp at hok
    · have he0 : e = e0 := by
        injection he with h1
        exact h1.symm
      subst he0
      rw [hred]
      exact ⟨rfl, List.mem_append_right _ (mem_handleErrorEvents_console _ _ _)⟩

/-- C5 witness: the amended behaviour evaluated on a concrete running
widget with a raising hook. -/
theorem stop_hook_error_behaviour_witness :
    (stop exWidgetRunning exHooksBadDestroy).widget = exWidgetRunning ∧
      Event.consoleError ("Failed to stop widget: " ++ "hook crash") ∈
        (stop exWidgetRunning exHooksBadDestroy).events :=
  (stop_hook_error_behaviour exWidgetRunning exHooksBadDestroy).2.2.2 "hook crash" rfl

/-- A hook event occurring in a trace flanked by hook-free segments
lies in the middle segment. -/
theorem mem_middle_hook {l1 l3 mid : List Event} {ev : Event}
    (hl1 : ∀ e ∈ l1, isLifecycleHookEv e = false)
    (hl3 : ∀ e ∈ l3, isLifecycleHookEv e = false)
    (hmem : ev ∈ l1 ++ mid ++ l3) (hev : isLifecycleHookEv ev = true) :
    ev ∈ mid := by
  rcases List.mem_append.mp hmem with hm | hm
  · rcases List.mem_append.mp hm with hm2 | hm2
    · exact absurd (hl1 _ hm2) (by simp [hev])
    · exact hm2
  · exact absurd (hl3 _ hm) (by simp [hev])

/-- Whenever a run of `start` invokes `onInit` or `onRender` on some
config, that config comes from an authorization result whose authorized
flag is true. -/
theorem start_hook_event_authorized (w : Widget) (h : Hooks) (env : Env)
    (cfg : WidgetConfig) :
    (Event.hookInit cfg ∈ (start w h env).events ∨
      Event.hookRender cfg ∈ (start w h env).events) →
    ∃ r, (authorize w env).result = Except.ok r ∧ r.authorized = true ∧
      cfg = r.config := by
  intro hmem
  have hq := authorize_no_hook_events w env
  cases hr : (authorize w env).result with
  | error e =>
    exfalso
    have hev : (start w h env).events =
        (authorize w env).events ++
          handleErrorEvents w.options "Failed to start widget" e := by
      simp [start, startAux, hr]
    rw [hev] at hmem
    rcases hmem with hm | hm <;> rcases List.mem_append.mp hm with hm2 | hm2
    · exact absurd (hq _ hm2) (by simp [isLifecycleHookEv])
    · exact absurd (handleErrorEvents_not_hook hm2) (by simp [isLifecycleHookEv])
    · exact absurd (hq _ hm2) (by simp [isLifecycleHookEv])
    · exact absurd (handleErrorEvents_not_hook hm2) (by simp [isLifecycleHookEv])
  | ok r =>
    cases hauth : r.authorized with
    | false =>
      exfalso
      have hev : (start w h env).events = (authorize w env).events := by
        simp [start, startAux, hr, hauth]
      rw [hev] at hmem
      rcases hmem with hm | hm
      · exact absurd (hq _ hm) (by simp [isLifecycleHookEv])
      · exact absurd (hq _ hm) (by simp [isLifecycleHookEv])
    | true =>
      refine ⟨r, rfl, hauth, ?_⟩
      have hinitk : isLifecycleHookEv (Event.hookInit cfg) = true := rfl
      have hrendk : isLifecycleHookEv (Event.hookRender cfg) = true := rfl
      cases hi : h.onInit r.config with
      | error e =>
        have hev : (start w h env).events =
            (authorize w env).events ++ [Event.hookInit r.config] ++
              handleErrorEvents w.options "Failed to start widget" e := by
          simp [start, startAux, hr, hauth, hi]
        rw [hev] at hmem
        rcases hmem with hm | hm
        · have h2 := mem_middle_hook hq
            (fun e2 he2 => handleErrorEvents_not_hook he2) hm hinitk
          simp at h2
          exact h2
        · have h2 := mem_middle_hook hq
            (fun e2 he2 => handleErrorEvents_not_hook he2) hm hrendk
          simp at h2
      | ok u1 =>
        cases hrend : h.onRender r.config with
        | error e =>
          have hev : (start w h env).events =
              (authorize w env).events ++
                [Event.hookInit r.config, Event.hookRender r.config] ++
                handleErrorEvents w.options "Failed to start widget" e := by
            simp [start, startAux, hr, hauth, hi, hrend]
          rw [hev] at hmem
          rcases hmem with hm | hm
          · have h2 := mem_middle_hook hq
              (fun e2 he2 => handleErrorEvents_not_hook he2) hm hinitk
            simp at h2
            exact h2
          · have h2 := mem_middle_hook hq
              (fun e2 he2 => handleErrorEvents_not_hook he2) hm hrendk
            simp at h2
            exact h2
        | ok u2 =>
          have hev : (start w h env).events =
              (authorize w env).events ++
                [Event.hookInit r.config, Event.hookRender r.config] ++
                trackEvents w.options "widget_loaded" := by
            simp [start, startAux, hr, hauth, hi, hrend]
          rw [hev] at hmem
          rcases hmem with hm | hm
          · have h2 := mem_middle_hook hq
              (fun e2 he2 => trackEvents_not_hook he2) hm hinitk
            simp at h2
            exact h2
          · have h2 := mem_middle_hook hq
              (fun e2 he2 => trackEvents_not_hook he2) hm hrendk
            simp at h2
            exact h2

/-- C7 theorem.  When `authorize` yields an unauthorized result,
`start()` returns without raising, invokes neither `onInit` nor
`onRender`, leaves the initialized flag false (given it started false)
and keeps the stored config; and in every run of `start`, `onInit` and
`onRender` are only invoked with the config of a result whose authorized
flag is true. -/
theorem start_unauthorized (w : Widget) (h : Hooks) (env : Env)
    (hinit : w.isInitialized = false)
    (r : AuthResponse) (hr : (authorize w env).result = Except.ok r)
    (hauth : r.authorized = false) :
    (start w h env).uncaught = none ∧
      countEv isInitHookEv (start w h env).events = 0 ∧
      countEv isRenderHookEv (start w h env).events = 0 ∧
      (start w h env).widget.isInitialized = false ∧
      (start w h env).widget.config = w.config ∧
      (∀ (w2 : Widget) (h2 : Hooks) (env2 : Env) (cfg : WidgetConfig),
        (Event.hookInit cfg ∈ (start w2 h2 env2).events ∨
          Event.hookRender cfg ∈ (start w2 h2 env2).events) →
        ∃ r2, (authorize w2 env2).result = Except.ok r2 ∧ r2.authorized = true ∧
          cfg = r2.config) := by
  have hred : start w h env =
      ⟨{ w with authData := some r }, (authorize w env).store,
        (authorize w env).events, none⟩ := by
    simp [start, startAux, hr, hauth]
  refine ⟨?_, ?_, ?_, ?_, ?_, start_hook_event_authorized⟩
  · rw [hred]
  · rw [hred]
    exact countEv_of_subhook_eq_zero
      (fun e hpe => by cases e <;> simp_all [isInitHookEv, isLifecycleHookEv])
      (authorize_no_hook_events w env)
  · rw [hred]
    exact countEv_of_subhook_eq_zero
      (fun e hpe => by cases e <;> simp_all [isRenderHookEv, isLifecycleHookEv])
      (authorize_no_hook_events w env)
  · rw [hred]
    exact hinit
  · rw [hred]

/-- An unauthorized authorization response. -/
def exAuthResponseUnauth : AuthResponse := { exAuthResponse with authorized := false }

/-- An environment whose network answers 200 with an unauthorized
body. -/
def envNetUnauth : Env :=
  { preview := none, origin := "https://host.example", store := emptyStore
    net := fun _ => .response 200 exAuthResponseUnauth, now := 1000 }

/-- C7 witness: an unauthorized network response on a concrete start
run. -/
theorem start_unauthorized_witness :
    (start exWidget exHooksOk envNetUnauth).uncaught = none ∧
      countEv isInitHookEv (start exWidget exHooksOk envNetUnauth).events = 0 ∧
      countEv isRenderHookEv (start exWidget exHooksOk envNetUnauth).events = 0 ∧
      (start exWidget exHooksOk envNetUnauth).widget.isInitialized = false ∧
      (start exWidget exHooksOk envNetUnauth).widget.config = exWidget.config := by
  have h := start_unauthorized exWidget exHooksOk envNetUnauth rfl
    exAuthResponseUnauth rfl rfl
  exact ⟨h.1, h.2.1, h.2.2.1, h.2.2.2.1, h.2.2.2.2.1⟩

/-- C8 theorem.  When the fresh authorization of a `reload()` run is
unauthorized, `reload` returns without raising, invokes none of
`onConfigUpdate`, `onDestroy` or `onRender`, and leaves the stored
config unchanged. -/
theorem reload_unauthorized (w : Widget) (h : Hooks) (env : Env)
    (r : AuthResponse)
    (hr : (authorize w { env with store := (clearCache w env.store).1 }).result =
      Except.ok r)
    (hauth : r.authorized = false) :
    (reload w h env).uncaught = none ∧
      countEv isUpdateHookEv (reload w h env).events = 0 ∧
      countEv isDestroyHookEv (reload w h env).events = 0 ∧
      countEv isRenderHookEv (reload w h env).events = 0 ∧
      (reload w h env).widget.config = w.config := by
  have hred : reload w h env =
      ⟨{ w with authData := some r },
        (authorize w { env with store := (clearCache w env.store).1 }).store,
        (clearCache w env.store).2 ++
          (authorize w { env with store := (clearCache w env.store).1 }).events,
        none⟩ := by
    simp [reload, reloadAux, hr, hauth]
  have hquiet : ∀ e ∈ (clearCache w env.store).2 ++
      (authorize w { env with store := (clearCache w env.store).1 }).events,
      isLifecycleHookEv e = false := by
    intro e he
    rcases List.mem_append.mp he with hm | hm
    · simp [clearCache] at hm
      subst hm
      rfl
    · exact authorize_no_hook_events _ _ e hm
  refine ⟨?_, ?_, ?_, ?_, ?_⟩
  · rw [hred]
  · rw [hred]
    exact countEv_of_subhook_eq_zero
      (fun e hpe => by cases e <;> simp_all [isUpdateHookEv, isLifecycleHookEv]) hquiet
  · rw [hred]
    exact countEv_of_subhook_eq_zero
      (fun e hpe => by cases e <;> simp_all [isDestroyHookEv, isLifecycleHookEv]) hquiet
  · rw [hred]
    exact countEv_of_subhook_eq_zero
      (fun e hpe => by cases e <;> simp_all [isRenderHookEv, isLifecycleHookEv]) hquiet
  · rw [hred]

/-- C8 witness: a concrete reload run whose fresh authorization is
unauthorized. -/
theorem reload_unauthorized_witness :
    (reload exWidget exHooksOk envNetUnauth).uncaught = none ∧
      countEv isUpdateHookEv (reload exWidget exHooksOk envNetUnauth).events = 0 ∧
      countEv isDestroyHookEv (reload exWidget exHooksOk envNetUnauth).events = 0 ∧
      countEv isRenderHookEv (reload exWidget exHooksOk envNetUnauth).events = 0 ∧
      (reload exWidget exHooksOk envNetUnauth).widget.config = exWidget.config :=
  reload_unauthorized exWidget exHooksOk envNetUnauth exAuthResponseUnauth rfl rfl

/-- A widget that has been started and rendered with an authorized
config. -/
def exWidgetRendered : Widget :=
  { exWidget with
    config := [("color", "red")]
    authData := some exAuthResponse
    isInitialized := true }

/-- C10 theorem.  `reload()` stores the fresh authorization result in
`authData` before checking its authorized flag: after an unauthorized
reload, `authData` holds the new unauthorized result while `config`
still holds the previous value, so the two protected fields can
disagree. -/
theorem reload_overwrites_authData (w : Widget) (h : Hooks) (env : Env)
    (r : AuthResponse)
    (hr : (authorize w { env with store := (clearCache w env.store).1 }).result =
      Except.ok r)
    (hauth : r.authorized = false) :
    (reload w h env).widget.authData = some r ∧
      (reload w h env).widget.config = w.config := by
  simp [reload, reloadAux, hr, hauth]

/-- C10 witness: the field disagreement evaluated on a concrete reload
run (previous config kept, fresh unauthorized result stored). -/
theorem reload_overwrites_authData_witness :
    (reload exWidgetRendered exHooksOk envNetUnauth).widget.authData =
        some exAuthResponseUnauth ∧
      (reload exWidgetRendered exHooksOk envNetUnauth).widget.config =
        exWidgetRendered.config :=
  reload_overwrites_authData exWidgetRendered exHooksOk envNetUnauth
    exAuthResponseUnauth rfl rfl

/-- C9 theorem.  Errors thrown inside the `try`-blocks of `start`,
`stop` and `reload` — by `authorize` after retry exhaustion or by any
lifecycle hook — never escape to the caller; whenever the block throws,
the error is reported as a console error carrying the block's failure
message and, when analytics is enabled, as a `widget_error` analytics
event. -/
theorem lifecycle_errors_swallowed (w : Widget) (h : Hooks) (env : Env) :
    (start w h env).uncaught = none ∧
      (stop w h).uncaught = none ∧
      (reload w h env).uncaught = none ∧
      (∀ e, (startAux w h env).uncaught = some e →
        Event.consoleError ("Failed to start widget" ++ ": " ++ e) ∈
            (start w h env).events ∧
          (w.options.analytics = true →
            Event.analyticsPost "widget_error" ∈ (start w h env).events)) ∧
      (∀ e, (stopAux w h).uncaught = some e →
        Event.consoleError ("Failed to stop widget" ++ ": " ++ e) ∈
            (stop w h).events ∧
          (w.options.analytics = true →
            Event.analyticsPost "widget_error" ∈ (stop w h).events)) ∧
      (∀ e, (reloadAux w h env).uncaught = some e →
        Event.consoleError ("Failed to reload widget" ++ ": " ++ e) ∈
            (reload w h env).events ∧
          (w.options.analytics = true →
            Event.analyticsPost "widget_error" ∈ (reload w h env).events)) := by
  refine ⟨?_, ?_, ?_, ?_, ?_, ?_⟩
  · cases hsu : (startAux w h env).uncaught with
    | none => simp [start, hsu]
    | some e => simp [start, hsu]
  · cases hsu : (stopAux w h).uncaught with
    | none => simp [stop, hsu]
    | some e => simp [stop, hsu]
  · cases hsu : (reloadAux w h env).uncaught with
    | none => simp [reload, hsu]
    | some e => simp [reload, hsu]
  · intro e hsu
    have hev : (start w h env).events =
        (startAux w h env).events ++
          handleErrorEvents w.options "Failed to start widget" e := by
      simp [start, hsu]
    rw [hev]
    exact ⟨List.mem_append_right _ (mem_handleErrorEvents_console _ _ _),
      fun ha => List.mem_append_right _ (mem_handleErrorEvents_analytics _ _ _ ha)⟩
  · intro e hsu
    have hev : (stop w h).events =
        (stopAux w h).events ++
          handleErrorEvents w.options "Failed to stop widget" e := by
      simp [stop, hsu]
    rw [hev]
    exact ⟨List.mem_append_right _ (mem_handleErrorEvents_console _ _ _),
      fun ha => List.mem_append_right _ (mem_handleErrorEvents_analytics _ _ _ ha)⟩
  · intro e hsu
    have hev : (reload w h env).events =
        (reloadAux w h env).events ++
          handleErrorEvents w.options "Failed to reload widget" e := by
      simp [reload, hsu]
    rw [hev]
    exact ⟨List.mem_append_right _ (mem_handleErrorEvents_console _ _ _),
      fun ha => List.mem_append_right _ (mem_handleErrorEvents_analytics _ _ _ ha)⟩

/-- C9 witness: a run whose stop hook throws has the error swallowed
and reported. -/
theorem lifecycle_errors_swallowed_witness :
    (start exWidgetRunning exHooksBadDestroy envAllFail).uncaught = none ∧
      (stop exWidgetRunning exHooksBadDestroy).uncaught = none ∧
      (reload exWidgetRunning exHooksBadDestroy envAllFail).uncaught = none ∧
      Event.consoleError ("Failed to stop widget" ++ ": " ++ "hook crash") ∈
        (stop exWidgetRunning exHooksBadDestroy).events := by
  have h := lifecycle_errors_swallowed exWidgetRunning exHooksBadDestroy envAllFail
  exact ⟨h.1, h.2.1, h.2.2.1, (h.2.2.2.2.1 "hook crash" rfl).1⟩

end WidgetSDK
